import Mathlib

/-!
Verification of the `VideoSummaryAgent` orchestration core (`ai_agent.py`).

The agent's stateful methods are embedded as explicit state-passing
functions over `AgentState`.  Every generative-model call is abstracted as
an `Except String String` parameter: `Except.ok text` models a successful
`model.generate_content` call returning `text`, `Except.error e` models the
call raising an exception whose `str(e)` is `e`.  Wall-clock reads
(`datetime.now()`) are abstracted as a function `clock : Nat → Nat` giving
the reading (in microseconds) of the n-th clock access; `hhmmss` models
`strftime("%H:%M:%S")`.  Python `float` arithmetic in the quality scorer is
modelled over `ℚ`.
-/

set_option linter.unusedVariables false
set_option linter.unnecessarySimpa false

/-! ## String helpers (models of Python `str` operations) -/

/-- Models Python `hay.startswith(needle)` on explicit character lists. -/
def startsList : List Char → List Char → Bool
  | [], _ => true
  | _ :: _, [] => false
  | a :: as, b :: bs => a == b && startsList as bs

/-- Models the Python substring test `needle in hay`. -/
def containsList (needle : List Char) : List Char → Bool
  | [] => startsList needle []
  | h :: t => startsList needle (h :: t) || containsList needle t

/-- Substring test on `String`. -/
def containsStr (needle hay : String) : Bool := containsList needle.data hay.data

/-- Models Python `s.count('\n\n')`: number of non-overlapping occurrences. -/
def countNN : List Char → Nat
  | '\n' :: '\n' :: rest => countNN rest + 1
  | _ :: rest => countNN rest
  | [] => 0

/-- Models Python `s.lower()` (ASCII case folding suffices for this code). -/
def pyLower (s : String) : String := String.mk (s.data.map Char.toLower)

/-- Models Python `s.replace(a, b)` for single characters. -/
def pyReplace (s : String) (a b : Char) : String :=
  String.mk (s.data.map (fun c => if c == a then b else c))

/-- Models Python slicing `s[:n]`. -/
def sTake (s : String) (n : Nat) : String := String.mk (s.data.take n)

/-- Models Python `min(a, b)` on two numbers. -/
def pymin (a b : ℚ) : ℚ := if a ≤ b then a else b

/-! ## Clock formatting -/

/-- Two zero-padded decimal digits, as produced by `strftime`. -/
def twoDigits (n : Nat) : List Char := [Nat.digitChar (n / 10 % 10), Nat.digitChar (n % 10)]

/-- Models `datetime.now().strftime("%H:%M:%S")`: the clock reading `t` (in
microseconds) is truncated to whole seconds and rendered as zero-padded
hours, minutes and seconds of the day. -/
def hhmmss (t : Nat) : String :=
  let sec := t / 1000000
  let d := sec % 86400
  String.mk (twoDigits (d / 3600) ++ ':' :: (twoDigits (d / 60 % 60) ++ ':' :: twoDigits (d % 60)))

/-- Stand-in for `datetime.now().isoformat()`; no claim depends on its format. -/
def isoformat (t : Nat) : String := "1970-01-01T" ++ hhmmss t

/-! ## Data model -/

/-- Values stored in the Python dicts the agent builds. -/
inductive PyVal where
  | str (s : String)
  | nat (n : Nat)
  | list (l : List PyVal)
  | dict (d : List (String × PyVal))

/-- Models Python dict assignment `d[k] = v`: an existing key keeps its
position and gets the new value, a new key is appended (insertion order). -/
def dictInsert : List (String × PyVal) → String → PyVal → List (String × PyVal)
  | [], k, v => [(k, v)]
  | (k', v') :: rest, k, v =>
      if k' == k then (k, v) :: rest else (k', v') :: dictInsert rest k v

/-- The `video_info` dict: each known key is present (`some`) or absent
(`none`); `duration` is numeric. -/
structure VideoInfo where
  title : Option String
  channel : Option String
  description : Option String
  duration : Option ℚ
  view_count : Option String
  upload_date : Option String

/-- Models Python truthiness `bool(video_info)` for the known keys. -/
def viTruthy (v : VideoInfo) : Bool :=
  v.title.isSome || v.channel.isSome || v.description.isSome ||
  v.duration.isSome || v.view_count.isSome || v.upload_date.isSome

/-- Models Python truthiness of the optional `audio_transcript` argument:
`None` and the empty string are falsy. -/
def transcriptTruthy : Option String → Bool
  | none => false
  | some t => t != ""

/-- One entry of `self.conversation_history` (see `_log_agent_action`). -/
structure LogEntry where
  timestamp : String
  action : String
  details : String
  agent_id : String

/-- The `available_data` inventory computed by `plan_analysis_task`. -/
structure AvailableData where
  video_metadata : Bool
  visual_frames : Nat
  audio_content : Bool
  video_duration : ℚ

/-- The structured plan dict built by `plan_analysis_task` /
`_create_fallback_plan`. -/
structure AnalysisPlan where
  plan_text : String
  available_data : AvailableData
  priority_steps : List String
  expected_insights : List String
  quality_criteria : List String
  created_at : String

/-- The mutable fields of a `VideoSummaryAgent` instance that the analysed
methods read or write.  `task_memory` holds the `'analysis_plan'` slot
(`none` = key absent). -/
structure AgentState where
  agent_id : String
  conversation_history : List LogEntry
  task_memory : Option AnalysisPlan
  analysis_cache : List (String × PyVal)

/-- Agent state right after `__init__` (at construction time `t0`). -/
def initAgentState (t0 : Nat) : AgentState :=
  { agent_id := "VideoAgent_" ++ toString t0
    conversation_history := []
    task_memory := none
    analysis_cache := [] }

/-- The `final_result` dict returned by `execute_analysis`. -/
structure FinalResult where
  summary : String
  analysis_steps_completed : List String
  quality_score : ℚ
  agent_reasoning : String
  execution_time : String

/-- One outcome per `model.generate_content` call site of a single
`execute_analysis` run: `ok` = the call returns that text, `error` = the
call raises with that message. -/
structure ModelResponses where
  planResp : Except String String
  visualResp : Except String String
  audioResp : Except String String
  synthResp : Except String String
  refineResp : Except String String

/-! ## Methods -/

/-- Source `_log_agent_action` (lines 38-50): appends one entry, timestamped with
the current clock reading. -/
def _log_agent_action (clock : Nat → Nat) (action details : String) (s : AgentState) : AgentState :=
  { s with conversation_history := s.conversation_history ++
      [{ timestamp := hhmmss (clock s.conversation_history.length)
         action := action
         details := details
         agent_id := s.agent_id }] }

/-- Source `_extract_priority_steps` (lines 348-352): ignores `plan_text`. -/
def _extract_priority_steps (plan_text : String) : List String :=
  ["Visual Analysis", "Audio Analysis", "Metadata Analysis", "Content Synthesis"]

/-- Source `_extract_expected_insights` (lines 354-356). -/
def _extract_expected_insights (plan_text : String) : List String :=
  ["Visual themes", "Audio content", "Metadata context", "Comprehensive summary"]

/-- Source `_extract_quality_criteria` (lines 358-360). -/
def _extract_quality_criteria (plan_text : String) : List String :=
  ["Comprehensive coverage", "Clear structure", "Engaging content", "Accurate analysis"]

/-- Source `_extract_key_insights` (lines 373-376). -/
def _extract_key_insights (text : String) : List String :=
  ["Key insight extracted from analysis"]

/-- Source `_extract_visual_themes` (lines 378-380). -/
def _extract_visual_themes (text : String) : List String :=
  ["Visual theme identified"]

/-- Source `_extract_key_topics` (lines 382-384). -/
def _extract_key_topics (text : String) : List String :=
  ["Key topic identified"]

/-- Source `_extract_tone_analysis` (lines 386-388). -/
def _extract_tone_analysis (text : String) : String :=
  "Tone analysis completed"

/-- Source `_analyze_title` (lines 390-392). -/
def _analyze_title (title : String) : String :=
  "Title suggests: " ++ sTake title 50 ++ "..."

/-- Source `_analyze_duration` (lines 394-401). -/
def _analyze_duration (duration : ℚ) : String :=
  if duration < 300 then "Short-form content"
  else if duration < 1800 then "Medium-form content"
  else "Long-form content"

/-- Source `_analyze_description` (lines 403-405). -/
def _analyze_description (description : String) : String :=
  "Description length: " ++ toString description.length ++ " characters"

/-- Source `_create_fallback_plan` (lines 362-371); `createdAt` models the
`datetime.now().isoformat()` reading. -/
def _create_fallback_plan (available_data : AvailableData) (createdAt : String) : AnalysisPlan :=
  { plan_text := "Fallback analysis plan"
    available_data := available_data
    priority_steps := ["Visual Analysis", "Content Synthesis"]
    expected_insights := ["Basic insights"]
    quality_criteria := ["Basic quality"]
    created_at := createdAt }

/-- Source `plan_analysis_task` (lines 52-111).  On model success the structured
plan is built and cached in `task_memory`; on model failure (the `except`
branch) the fallback plan is returned but `task_memory` is left untouched,
exactly as in the source. -/
def plan_analysis_task (clock : Nat → Nat) (planResp : Except String String)
    (video_info : VideoInfo) (frames : List String) (audio_transcript : Option String)
    (s : AgentState) : AnalysisPlan × AgentState :=
  let s1 := _log_agent_action clock "PLANNING"
    "Analyzing available data and creating execution plan" s
  let available_data : AvailableData :=
    { video_metadata := viTruthy video_info
      visual_frames := frames.length
      audio_content := transcriptTruthy audio_transcript
      video_duration := if viTruthy video_info then video_info.duration.getD 0 else 0 }
  match planResp with
  | Except.ok plan_text =>
      let analysis_plan : AnalysisPlan :=
        { plan_text := plan_text
          available_data := available_data
          priority_steps := _extract_priority_steps plan_text
          expected_insights := _extract_expected_insights plan_text
          quality_criteria := _extract_quality_criteria plan_text
          created_at := isoformat (clock s1.conversation_history.length) }
      let s2 := { s1 with task_memory := some analysis_plan }
      let s3 := _log_agent_action clock "PLAN_CREATED"
        ("Created " ++ toString analysis_plan.priority_steps.length ++ " step plan") s2
      (analysis_plan, s3)
  | Except.error e =>
      let s2 := _log_agent_action clock "PLAN_ERROR" ("Planning failed: " ++ e) s1
      (_create_fallback_plan available_data
        (isoformat (clock s2.conversation_history.length)), s2)

/-! ## Visual prompt content (lines 183-187) -/

/-- One element of the `content` list handed to `generate_content` by the
visual runner: the prompt text, a frame-annotation line, or a frame. -/
inductive ContentPart where
  | text (s : String)
  | frameHeader (frameNo : Nat) (timestamp : ℚ)
  | frameData (data : String)

/-- The derived timestamp of line 185:
`i * (video_info.get('duration', 0) / len(frames))`. -/
def frameTimestamp (duration : ℚ) (frameCount i : Nat) : ℚ :=
  (i : ℚ) * (duration / (frameCount : ℚ))

/-- The `content` list built by `_analyze_visual_content` (lines 183-187):
the visual prompt, then, for each of the first 6 frames, its annotation
line (`Frame {i+1} (timestamp: ...)`, carried structurally) and the frame. -/
def visualModelContent (video_info : VideoInfo) (frames : List String) : List ContentPart :=
  ContentPart.text "As an expert video content analyst, analyze these visual frames comprehensively" ::
    (frames.take 6).enum.flatMap (fun p =>
      [ContentPart.frameHeader (p.1 + 1)
        (frameTimestamp (video_info.duration.getD 0) frames.length p.1),
       ContentPart.frameData p.2])

/-- The frames actually included in a content list. -/
def sentFrames (l : List ContentPart) : List String :=
  l.filterMap (fun p => match p with | ContentPart.frameData d => some d | _ => none)

/-- The (frame number, timestamp) annotations included in a content list. -/
def sentHeaders (l : List ContentPart) : List (Nat × ℚ) :=
  l.filterMap (fun p => match p with | ContentPart.frameHeader n ts => some (n, ts) | _ => none)

/-! ## Step runners, synthesizer, scorer, refiner -/

/-- Source `_analyze_visual_content` (lines 161-202). -/
def _analyze_visual_content (clock : Nat → Nat) (modelResp : Except String String)
    (frames : List String) (video_info : VideoInfo) (s : AgentState) : PyVal × AgentState :=
  let s1 := _log_agent_action clock "VISUAL_ANALYSIS"
    ("Analyzing " ++ toString frames.length ++ " visual frames") s
  match modelResp with
  | Except.ok text =>
      let visual_analysis : PyVal := PyVal.dict
        [("analysis", PyVal.str text),
         ("frames_processed", PyVal.nat frames.length),
         ("key_insights", PyVal.list ((_extract_key_insights text).map PyVal.str)),
         ("visual_themes", PyVal.list ((_extract_visual_themes text).map PyVal.str))]
      let s2 := { s1 with analysis_cache := dictInsert s1.analysis_cache "visual" visual_analysis }
      (visual_analysis, s2)
  | Except.error e =>
      let s2 := _log_agent_action clock "VISUAL_ERROR" ("Visual analysis failed: " ++ e) s1
      (PyVal.dict [("analysis", PyVal.str "Visual analysis unavailable"),
                   ("error", PyVal.str e)], s2)

/-- Source `_analyze_audio_content` (lines 204-239). -/
def _analyze_audio_content (clock : Nat → Nat) (modelResp : Except String String)
    (audio_transcript : String) (video_info : VideoInfo) (s : AgentState) : PyVal × AgentState :=
  let s1 := _log_agent_action clock "AUDIO_ANALYSIS" "Processing audio content" s
  match modelResp with
  | Except.ok text =>
      let audio_analysis : PyVal := PyVal.dict
        [("analysis", PyVal.str text),
         ("transcript_length", PyVal.nat audio_transcript.length),
         ("key_topics", PyVal.list ((_extract_key_topics text).map PyVal.str)),
         ("tone_analysis", PyVal.str (_extract_tone_analysis text))]
      let s2 := { s1 with analysis_cache := dictInsert s1.analysis_cache "audio" audio_analysis }
      (audio_analysis, s2)
  | Except.error e =>
      let s2 := _log_agent_action clock "AUDIO_ERROR" ("Audio analysis failed: " ++ e) s1
      (PyVal.dict [("analysis", PyVal.str "Audio analysis unavailable"),
                   ("error", PyVal.str e)], s2)

/-- Source `_analyze_metadata` (lines 241-257): no model call. -/
def _analyze_metadata (clock : Nat → Nat) (video_info : VideoInfo) (s : AgentState) :
    PyVal × AgentState :=
  let s1 := _log_agent_action clock "METADATA_ANALYSIS" "Processing video metadata" s
  let metadata_analysis : PyVal := PyVal.dict
    [("title_analysis", PyVal.str (_analyze_title (video_info.title.getD ""))),
     ("channel_context", PyVal.str (video_info.channel.getD "Unknown")),
     ("duration_analysis", PyVal.str (_analyze_duration (video_info.duration.getD 0))),
     ("description_insights", PyVal.str (_analyze_description (video_info.description.getD ""))),
     ("engagement_metrics", PyVal.dict
        [("view_count", PyVal.str (video_info.view_count.getD "N/A")),
         ("upload_date", PyVal.str (video_info.upload_date.getD "N/A"))])]
  let s2 := { s1 with analysis_cache := dictInsert s1.analysis_cache "metadata" metadata_analysis }
  (metadata_analysis, s2)

/-- Source `_synthesize_content` (lines 259-288). -/
def _synthesize_content (clock : Nat → Nat) (modelResp : Except String String)
    (analysis_results : List (String × PyVal)) (video_info : VideoInfo) (s : AgentState) :
    String × AgentState :=
  let s1 := _log_agent_action clock "CONTENT_SYNTHESIS" "Creating comprehensive summary" s
  match modelResp with
  | Except.ok text => (text, s1)
  | Except.error e =>
      let s2 := _log_agent_action clock "SYNTHESIS_ERROR" ("Content synthesis failed: " ++ e) s1
      ("Summary generation failed. Please try again.", s2)

/-- The score computation of `_quality_check_summary` (lines 290-310),
translated line by line. -/
def quality_check_score (summary : String) (quality_criteria : List String) : ℚ :=
  let score : ℚ := 0.5
  let score := if 500 ≤ summary.length ∧ summary.length ≤ 2000 then score + 0.2 else score
  let score := if 3 ≤ countNN summary.data then score + 0.1 else score
  let key_elements : List String := ["summary", "overview", "key", "main", "insights"]
  let found_elements := (key_elements.filter
      (fun element => containsList (pyLower element).data (pyLower summary).data)).length
  let score := score + ((found_elements : ℚ) / (key_elements.length : ℚ)) * 0.2
  pymin score 1.0

/-- Source `_quality_check_summary` (lines 290-310): logs, then scores. -/
def _quality_check_summary (clock : Nat → Nat) (summary : String)
    (quality_criteria : List String) (s : AgentState) : ℚ × AgentState :=
  let s1 := _log_agent_action clock "QUALITY_ASSESSMENT" "Evaluating summary quality" s
  (quality_check_score summary quality_criteria, s1)

/-- Source `_refine_summary` (lines 312-340). -/
def _refine_summary (clock : Nat → Nat) (modelResp : Except String String)
    (summary : String) (analysis_results : List (String × PyVal)) (s : AgentState) :
    String × AgentState :=
  let s1 := _log_agent_action clock "SUMMARY_REFINEMENT" "Improving summary quality" s
  match modelResp with
  | Except.ok text => (text, s1)
  | Except.error e =>
      let s2 := _log_agent_action clock "REFINEMENT_ERROR" ("Summary refinement failed: " ++ e) s1
      (summary, s2)

/-- Source `_generate_reasoning_explanation` (lines 342-345): joins the actions of
the last 10 log entries. -/
def _generate_reasoning_explanation (s : AgentState) : String :=
  let actions := (s.conversation_history.drop (s.conversation_history.length - 10)).map
    (fun entry => entry.action)
  "Agent completed analysis using steps: " ++ String.intercalate " → " actions

/-- The step-dispatch loop of `execute_analysis` (lines 126-135): for each
planned step, lower-case it, replace spaces with underscores, and dispatch
on substring matches guarded by input availability. -/
def runSteps (clock : Nat → Nat) (mr : ModelResponses) (video_info : VideoInfo)
    (frames : List String) (audio_transcript : Option String) :
    List String → List (String × PyVal) → AgentState → List (String × PyVal) × AgentState
  | [], acc, s => (acc, s)
  | step :: rest, acc, s =>
      let step_name := pyReplace (pyLower step) ' ' '_'
      if containsStr "visual" step_name && !frames.isEmpty then
        let r := _analyze_visual_content clock mr.visualResp frames video_info s
        runSteps clock mr video_info frames audio_transcript rest
          (dictInsert acc "visual" r.1) r.2
      else if containsStr "audio" step_name && transcriptTruthy audio_transcript then
        let r := _analyze_audio_content clock mr.audioResp (audio_transcript.getD "")
          video_info s
        runSteps clock mr video_info frames audio_transcript rest
          (dictInsert acc "audio" r.1) r.2
      else if containsStr "metadata" step_name then
        let r := _analyze_metadata clock video_info s
        runSteps clock mr video_info frames audio_transcript rest
          (dictInsert acc "metadata" r.1) r.2
      else
        runSteps clock mr video_info frames audio_transcript rest acc s

/-- Source `execute_analysis` (lines 113-159).  The `Except.error` outcome models
the uncaught `KeyError` raised at line 123 when `task_memory` holds no
`'analysis_plan'` entry (which happens exactly when planning was needed and
its model call failed, since the fallback plan is returned but not cached). -/
def execute_analysis (clock : Nat → Nat) (mr : ModelResponses) (video_info : VideoInfo)
    (frames : List String) (audio_transcript : Option String) (s : AgentState) :
    Except String FinalResult × AgentState :=
  let s1 := _log_agent_action clock "EXECUTION_START"
    "Beginning comprehensive video analysis" s
  let s2 := if s1.task_memory.isNone
    then (plan_analysis_task clock mr.planResp video_info frames audio_transcript s1).2
    else s1
  match s2.task_memory with
  | none => (Except.error "KeyError: analysis_plan", s2)
  | some plan =>
      let rs := runSteps clock mr video_info frames audio_transcript plan.priority_steps [] s2
      let analysis_results := rs.1
      let s3 := _log_agent_action clock "SYNTHESIS" "Combining all analysis results" rs.2
      let syn := _synthesize_content clock mr.synthResp analysis_results video_info s3
      let synthesis_result := syn.1
      let s4 := _log_agent_action clock "QUALITY_CHECK" "Evaluating summary quality" syn.2
      let qc := _quality_check_summary clock synthesis_result plan.quality_criteria s4
      let quality_score := qc.1
      let refined :=
        if quality_score < 0.8 then
          let s5 := _log_agent_action clock "REFINEMENT"
            ("Quality score: " ++ toString quality_score ++ ", refining summary") qc.2
          _refine_summary clock mr.refineResp synthesis_result analysis_results s5
        else (synthesis_result, qc.2)
      let final_result : FinalResult :=
        { summary := refined.1
          analysis_steps_completed := analysis_results.map Prod.fst
          quality_score := quality_score
          agent_reasoning := _generate_reasoning_explanation refined.2
          execution_time := isoformat (clock refined.2.conversation_history.length) }
      let s6 := _log_agent_action clock "EXECUTION_COMPLETE"
        ("Analysis completed with quality score: " ++ toString quality_score) refined.2
      (Except.ok final_result, s6)

/-! ## Spec-side scorer (for the refinement comparison of the scorer) -/

/-- Written from the spec's words (section 4.5), to be compared with the
source scorer: start at 0.5, add 0.2 if the length is within [500, 2000],
add 0.1 if the text has at least 3 blank-line paragraph breaks, add
(n/5)·0.2 for the n matched lexicon terms, clamp to at most 1.0. -/
def specQualityScore (text : String) : ℚ :=
  let base : ℚ := 0.5
  let lengthBonus : ℚ := if 500 ≤ text.length ∧ text.length ≤ 2000 then 0.2 else 0
  let structureBonus : ℚ := if 3 ≤ countNN text.data then 0.1 else 0
  let lexicon : List String := ["summary", "overview", "key", "main", "insights"]
  let matched := (lexicon.filter
      (fun w => containsList (pyLower w).data (pyLower text).data)).length
  min (base + lengthBonus + structureBonus + ((matched : ℚ) / 5) * 0.2) 1

/-! ## Auxiliary definitions for the theorems below -/

/-- Sample concrete inputs used by counterexamples and witnesses. -/
def viSample : VideoInfo :=
  { title := some "A Video", channel := some "A Channel", description := some "desc"
    duration := some 120, view_count := none, upload_date := none }

def mrAllFail : ModelResponses :=
  { planResp := Except.error "network error", visualResp := Except.error "network error"
    audioResp := Except.error "network error", synthResp := Except.error "network error"
    refineResp := Except.error "network error" }

/-- A 1000-character draft with three blank-line breaks containing exactly
the lexicon terms "summary" and "key". -/
def cexDraft : String :=
  String.mk ("summary key".data ++ List.replicate 6 '\n' ++ List.replicate 983 'a')

def mrPlanOk : ModelResponses :=
  { planResp := Except.ok "the plan", visualResp := Except.error "down"
    audioResp := Except.error "down", synthResp := Except.error "down"
    refineResp := Except.error "down" }

def mrRefineFails : ModelResponses :=
  { planResp := Except.ok "the plan", visualResp := Except.ok "visual text"
    audioResp := Except.ok "audio text", synthResp := Except.ok "a short draft"
    refineResp := Except.error "refine model down" }

def mrRefineOk : ModelResponses :=
  { planResp := Except.ok "the plan", visualResp := Except.ok "visual text"
    audioResp := Except.ok "audio text", synthResp := Except.ok "a short draft"
    refineResp := Except.ok "a polished and refined narrative" }

/-- The draft narrative produced by the synthesis stage, as a function of
its model-call outcome (`_synthesize_content`, lines 283-288). -/
def draftOf (synthResp : Except String String) : String :=
  match synthResp with
  | Except.ok text => text
  | Except.error _ => "Summary generation failed. Please try again."

/-- Entries of `tail` are stamped with the clock readings of successive log
calls starting at call index `base`. -/
def StampedBy (clock : Nat → Nat) (base : Nat) (tail : List LogEntry) : Prop :=
  ∀ i, i < tail.length →
    (tail[i]?).map LogEntry.timestamp = some (hhmmss (clock (base + i)))

/-- Going from state `s` to state `s2`, the log only grew at the end, and
every new entry is stamped with the clock reading of its own log call. -/
def LogExtends (clock : Nat → Nat) (s s2 : AgentState) : Prop :=
  ∃ tail, s2.conversation_history = s.conversation_history ++ tail ∧
    StampedBy clock s.conversation_history.length tail

def c9clock : Nat → Nat := fun i => 300000 * i

def mrAllOk : ModelResponses :=
  { planResp := Except.ok "plan text", visualResp := Except.ok "visual text"
    audioResp := Except.ok "audio text", synthResp := Except.ok "the draft"
    refineResp := Except.ok "refined text" }

/-- The log produced by a concrete `execute_analysis` run under a strictly
increasing clock that advances 0.3 seconds per reading. -/
def c9hist : List LogEntry :=
  (execute_analysis c9clock mrAllOk viSample ["f"] (some "hi") (initAgentState 0)).2.conversation_history

/-! ## Theorems -/


/-- C1: with a fresh agent (no cached plan) and a failing planning model
call, `execute_analysis` raises `KeyError` instead of returning a result. -/
theorem execute_analysis_keyerror_on_plan_failure :
    (execute_analysis (fun i => i) mrAllFail viSample [] none (initAgentState 0)).1 =
      Except.error "KeyError: analysis_plan" := by
  rfl

/-- C4: on a failing planning model call, `plan_analysis_task` returns the
deterministic fallback plan. -/
theorem plan_analysis_task_fallback (clock : Nat → Nat) (e : String)
    (video_info : VideoInfo) (frames : List String) (audio_transcript : Option String)
    (s : AgentState) :
    (plan_analysis_task clock (Except.error e) video_info frames audio_transcript s).1 =
      { plan_text := "Fallback analysis plan"
        available_data :=
          { video_metadata := viTruthy video_info
            visual_frames := frames.length
            audio_content := transcriptTruthy audio_transcript
            video_duration := if viTruthy video_info then video_info.duration.getD 0 else 0 }
        priority_steps := ["Visual Analysis", "Content Synthesis"]
        expected_insights := ["Basic insights"]
        quality_criteria := ["Basic quality"]
        created_at := isoformat (clock (s.conversation_history.length + 2)) } := by
  simp [plan_analysis_task, _create_fallback_plan, _log_agent_action]

/-- C7: on planner success the priority step list is the fixed canonical
four-step sequence, for every model reply; the reply text is stored only as
`plan_text`. -/
theorem plan_analysis_task_canonical_steps (clock : Nat → Nat) (t : String)
    (video_info : VideoInfo) (frames : List String) (audio_transcript : Option String)
    (s : AgentState) :
    (plan_analysis_task clock (Except.ok t) video_info frames audio_transcript s).1.priority_steps =
        ["Visual Analysis", "Audio Analysis", "Metadata Analysis", "Content Synthesis"] ∧
      (plan_analysis_task clock (Except.ok t) video_info frames audio_transcript s).1.plan_text = t := by
  constructor <;> rfl

/-- C6: each model call site in the visual runner, audio runner and
synthesizer converts a model failure into its fixed degraded value. -/
theorem model_failure_degraded_values (clock : Nat → Nat) (e1 e2 e3 : String)
    (frames : List String) (transcript : String) (video_info : VideoInfo)
    (results : List (String × PyVal)) (s1 s2 s3 : AgentState) :
    (_analyze_visual_content clock (Except.error e1) frames video_info s1).1 =
        PyVal.dict [("analysis", PyVal.str "Visual analysis unavailable"),
                    ("error", PyVal.str e1)] ∧
      (_analyze_audio_content clock (Except.error e2) transcript video_info s2).1 =
        PyVal.dict [("analysis", PyVal.str "Audio analysis unavailable"),
                    ("error", PyVal.str e2)] ∧
      (_synthesize_content clock (Except.error e3) results video_info s3).1 =
        "Summary generation failed. Please try again." := by
  refine ⟨rfl, rfl, rfl⟩

/-! ## C3: quality scorer -/

set_option maxRecDepth 10000 in
/-- C3 counterexample: this draft satisfies every hypothesis of the claim
(length 1000, at least 3 blank-line breaks, contains "summary" and "key"
and no other lexicon term), yet its score is 0.88, not the claimed 0.98. -/
theorem quality_check_score_claim_false :
    cexDraft.length = 1000 ∧
      3 ≤ countNN cexDraft.data ∧
      containsStr "summary" (pyLower cexDraft) = true ∧
      containsStr "key" (pyLower cexDraft) = true ∧
      containsStr "overview" (pyLower cexDraft) = false ∧
      containsStr "main" (pyLower cexDraft) = false ∧
      containsStr "insights" (pyLower cexDraft) = false ∧
      quality_check_score cexDraft [] = 88/100 ∧
      ¬ quality_check_score cexDraft [] = 98/100 := by
  have hlen : cexDraft.length = 1000 := by decide
  have hnn : countNN cexDraft.data = 3 := by decide
  have hfound : ((["summary", "overview", "key", "main", "insights"] : List String).filter
      (fun element => containsList (pyLower element).data (pyLower cexDraft).data)).length = 2 := by
    decide
  have hscore : quality_check_score cexDraft [] = 88/100 := by
    rw [quality_check_score]
    rw [hfound, hlen, hnn]
    norm_num [pymin]
  refine ⟨hlen, by rw [hnn], by decide, by decide, by decide, by decide, by decide, hscore, ?_⟩
  rw [hscore]
  norm_num

theorem pymin_le_right (a b : ℚ) : pymin a b ≤ b := by
  unfold pymin
  split_ifs with h
  · exact h
  · exact le_refl b

theorem pymin_nonneg {a b : ℚ} (ha : 0 ≤ a) (hb : 0 ≤ b) : 0 ≤ pymin a b := by
  unfold pymin
  split_ifs <;> assumption

set_option maxRecDepth 10000 in
/-- C3 amended: the scorer computes exactly the spec's formula (0.5 base,
+0.2 for length in [500,2000], +0.1 for at least 3 blank-line breaks,
+(n/5)·0.2 for n matched lexicon terms, clamped at 1.0), is independent of
the criteria argument, always lies in [0,1], and the claim's example draft
scores exactly 0.88 (not 0.98). -/
theorem quality_check_score_amended (s : String) (c : List String) :
    quality_check_score s c = specQualityScore s ∧
      0 ≤ quality_check_score s c ∧ quality_check_score s c ≤ 1 ∧
      quality_check_score cexDraft [] = 88/100 := by
  have hone : (1.0 : ℚ) = 1 := by norm_num
  have heq : quality_check_score s c = specQualityScore s := by
    by_cases hL : 500 ≤ s.length ∧ s.length ≤ 2000 <;>
      by_cases hN : 3 ≤ countNN s.data <;>
        simp [quality_check_score, specQualityScore, pymin, min_def, hL, hN, hone]
  refine ⟨heq, ?_, ?_, ?_⟩
  · rw [heq]
    simp only [specQualityScore]
    apply le_min ?_ (by norm_num)
    split_ifs <;> positivity
  · rw [heq]
    simp only [specQualityScore]
    exact min_le_right _ _
  · have hlen : cexDraft.length = 1000 := by decide
    have hnn : countNN cexDraft.data = 3 := by decide
    have hfound : (((["summary", "overview", "key", "main", "insights"]) : List String).filter
        (fun element => containsList (pyLower element).data (pyLower cexDraft).data)).length = 2 := by
      decide
    rw [quality_check_score]
    rw [hfound, hlen, hnn]
    norm_num [pymin]

/-! ## C8: visual runner content -/

theorem sentFrames_pairs (g : Nat → ℚ) (l : List String) : ∀ n : Nat,
    sentFrames ((List.enumFrom n l).flatMap
      (fun p => [ContentPart.frameHeader (p.1 + 1) (g p.1), ContentPart.frameData p.2])) = l := by
  induction l with
  | nil => intro n; rfl
  | cons x xs ih =>
      intro n
      simp only [List.enumFrom, List.flatMap_cons, sentFrames, List.filterMap_append]
      simpa [sentFrames] using ih (n + 1)

theorem sentHeaders_pairs (g : Nat → ℚ) (l : List String) : ∀ n : Nat,
    sentHeaders ((List.enumFrom n l).flatMap
      (fun p => [ContentPart.frameHeader (p.1 + 1) (g p.1), ContentPart.frameData p.2])) =
      (List.range' n l.length).map (fun i => (i + 1, g i)) := by
  induction l with
  | nil => intro n; rfl
  | cons x xs ih =>
      intro n
      simp only [List.enumFrom, List.flatMap_cons, sentHeaders, List.filterMap_append,
        List.length_cons, List.range'_succ, List.map_cons]
      simpa [sentHeaders] using ih (n + 1)

theorem sentFrames_text_cons (s : String) (l : List ContentPart) :
    sentFrames (ContentPart.text s :: l) = sentFrames l := by
  simp [sentFrames]

theorem sentHeaders_text_cons (s : String) (l : List ContentPart) :
    sentHeaders (ContentPart.text s :: l) = sentHeaders l := by
  simp [sentHeaders]

/-- C8: for every non-empty frame list the visual runner's model content
holds exactly the first (at most 6) frames, the i-th sent frame being
annotated with timestamp i · (duration / frame_count) where frame_count is
the length of the full supplied list. -/
theorem visual_content_first6 (video_info : VideoInfo) (frames : List String)
    (h : frames ≠ []) :
    sentFrames (visualModelContent video_info frames) = frames.take 6 ∧
      (sentFrames (visualModelContent video_info frames)).length ≤ 6 ∧
      sentHeaders (visualModelContent video_info frames) =
        (List.range (min 6 frames.length)).map
          (fun i : ℕ => ((i + 1 : ℕ), (i : ℚ) * (video_info.duration.getD 0 / (frames.length : ℚ)))) := by
  have h1 : sentFrames (visualModelContent video_info frames) = frames.take 6 := by
    simp only [visualModelContent, List.enum, sentFrames_text_cons]
    exact sentFrames_pairs (fun i => frameTimestamp (video_info.duration.getD 0) frames.length i)
      (frames.take 6) 0
  refine ⟨h1, ?_, ?_⟩
  · rw [h1]
    simpa using List.length_take_le 6 frames
  · simp only [visualModelContent, List.enum, sentHeaders_text_cons]
    rw [sentHeaders_pairs]
    rw [List.length_take, ← List.range_eq_range']
    simp [frameTimestamp]

/-! ## Step dispatch on the canonical plan -/

theorem step_name_visual :
    pyReplace (pyLower "Visual Analysis") ' ' '_' = "visual_analysis" := by decide

theorem step_name_audio :
    pyReplace (pyLower "Audio Analysis") ' ' '_' = "audio_analysis" := by decide

theorem step_name_metadata :
    pyReplace (pyLower "Metadata Analysis") ' ' '_' = "metadata_analysis" := by decide

theorem step_name_synthesis :
    pyReplace (pyLower "Content Synthesis") ' ' '_' = "content_synthesis" := by decide

theorem cond_visual_va : containsStr "visual" "visual_analysis" = true := by decide
theorem cond_audio_va : containsStr "audio" "visual_analysis" = false := by decide
theorem cond_meta_va : containsStr "metadata" "visual_analysis" = false := by decide
theorem cond_visual_aa : containsStr "visual" "audio_analysis" = false := by decide
theorem cond_audio_aa : containsStr "audio" "audio_analysis" = true := by decide
theorem cond_meta_aa : containsStr "metadata" "audio_analysis" = false := by decide
theorem cond_visual_ma : containsStr "visual" "metadata_analysis" = false := by decide
theorem cond_audio_ma : containsStr "audio" "metadata_analysis" = false := by decide
theorem cond_meta_ma : containsStr "metadata" "metadata_analysis" = true := by decide
theorem cond_visual_cs : containsStr "visual" "content_synthesis" = false := by decide
theorem cond_audio_cs : containsStr "audio" "content_synthesis" = false := by decide
theorem cond_meta_cs : containsStr "metadata" "content_synthesis" = false := by decide

theorem beq_visual_audio : (("visual" : String) == "audio") = false := by decide
theorem beq_visual_meta : (("visual" : String) == "metadata") = false := by decide
theorem beq_audio_meta : (("audio" : String) == "metadata") = false := by decide

/-- Dispatch over the canonical four-step plan: the accumulated result keys
are exactly the available modalities, in canonical order. -/
theorem runSteps_canonical_keys (clock : Nat → Nat) (mr : ModelResponses)
    (video_info : VideoInfo) (frames : List String) (audio_transcript : Option String)
    (s : AgentState) :
    (runSteps clock mr video_info frames audio_transcript
        ["Visual Analysis", "Audio Analysis", "Metadata Analysis", "Content Synthesis"]
        [] s).1.map Prod.fst =
      (if frames.isEmpty then [] else ["visual"]) ++
        (if transcriptTruthy audio_transcript then ["audio"] else []) ++ ["metadata"] := by
  cases frames with
  | nil =>
      cases htr : transcriptTruthy audio_transcript <;>
        simp [runSteps, step_name_visual, step_name_audio, step_name_metadata,
          step_name_synthesis, cond_visual_va, cond_audio_va, cond_meta_va,
          cond_visual_aa, cond_audio_aa, cond_meta_aa, cond_visual_ma, cond_audio_ma,
          cond_meta_ma, cond_visual_cs, cond_audio_cs, cond_meta_cs, htr,
          dictInsert, beq_visual_audio, beq_visual_meta, beq_audio_meta]
  | cons x xs =>
      cases htr : transcriptTruthy audio_transcript <;>
        simp [runSteps, step_name_visual, step_name_audio, step_name_metadata,
          step_name_synthesis, cond_visual_va, cond_audio_va, cond_meta_va,
          cond_visual_aa, cond_audio_aa, cond_meta_aa, cond_visual_ma, cond_audio_ma,
          cond_meta_ma, cond_visual_cs, cond_audio_cs, cond_meta_cs, htr,
          dictInsert, beq_visual_audio, beq_visual_meta, beq_audio_meta]

theorem log_task_memory (clock : Nat → Nat) (a d : String) (s : AgentState) :
    (_log_agent_action clock a d s).task_memory = s.task_memory := rfl

/-- Joint characterization of an `execute_analysis` run on a fresh plan
cache whose planning model call succeeds: the run returns a result whose
steps list, quality score and summary are as the source computes them. -/
theorem execute_ok_shape (clock : Nat → Nat) (mr : ModelResponses) (video_info : VideoInfo)
    (frames : List String) (audio_transcript : Option String) (s : AgentState)
    (t : String) (hplan : mr.planResp = Except.ok t) (hs : s.task_memory = none) :
    ∃ r s', execute_analysis clock mr video_info frames audio_transcript s = (Except.ok r, s') ∧
      r.analysis_steps_completed =
        (if frames.isEmpty then [] else ["visual"]) ++
          (if transcriptTruthy audio_transcript then ["audio"] else []) ++ ["metadata"] ∧
      r.quality_score = quality_check_score (draftOf mr.synthResp) (_extract_quality_criteria t) ∧
      r.summary =
        (if quality_check_score (draftOf mr.synthResp) (_extract_quality_criteria t) < 0.8 then
          (match mr.refineResp with
           | Except.ok rt => rt
           | Except.error _ => draftOf mr.synthResp)
         else draftOf mr.synthResp) := by
  rw [execute_analysis, hplan]
  cases hsy : mr.synthResp with
  | ok d =>
      simp only [log_task_memory, hs, Option.isNone_none, if_true, plan_analysis_task,
        _synthesize_content, _quality_check_summary, _refine_summary, draftOf]
      refine ⟨_, _, rfl, ?_, ?_, ?_⟩
      · exact runSteps_canonical_keys clock mr video_info frames audio_transcript _
      · rfl
      · by_cases hq : quality_check_score d (_extract_quality_criteria t) < 0.8
        · simp only [hq, ite_true]
          cases mr.refineResp <;> rfl
        · simp only [hq, ite_false]
  | error e =>
      simp only [log_task_memory, hs, Option.isNone_none, if_true, plan_analysis_task,
        _synthesize_content, _quality_check_summary, _refine_summary, draftOf]
      refine ⟨_, _, rfl, ?_, ?_, ?_⟩
      · exact runSteps_canonical_keys clock mr video_info frames audio_transcript _
      · rfl
      · by_cases hq : quality_check_score "Summary generation failed. Please try again."
            (_extract_quality_criteria t) < 0.8
        · simp only [hq, ite_true]
          cases mr.refineResp <;> rfl
        · simp only [hq, ite_false]

/-! ## C2, C5, C10 -/

/-- C2: with a successfully created plan, `execute_analysis` returns a
result whose completed-steps list is exactly the available modalities in
canonical order: visual only for a non-empty frame list, audio only for a
non-empty transcript, metadata always. -/
theorem execute_analysis_steps_completed (clock : Nat → Nat) (mr : ModelResponses)
    (video_info : VideoInfo) (frames : List String) (audio_transcript : Option String)
    (s : AgentState) (t : String) (hplan : mr.planResp = Except.ok t)
    (hs : s.task_memory = none) :
    ∃ r s', execute_analysis clock mr video_info frames audio_transcript s = (Except.ok r, s') ∧
      r.analysis_steps_completed =
        (if frames.isEmpty then [] else ["visual"]) ++
          (if transcriptTruthy audio_transcript then ["audio"] else []) ++ ["metadata"] := by
  obtain ⟨r, s', h1, h2, -, -⟩ :=
    execute_ok_shape clock mr video_info frames audio_transcript s t hplan hs
  exact ⟨r, s', h1, h2⟩

/-- C2 witness: zero frames and no transcript give exactly ["metadata"]. -/
theorem execute_analysis_steps_completed_witness :
    ∃ r s', execute_analysis (fun i => i) mrPlanOk viSample [] none (initAgentState 0) =
        (Except.ok r, s') ∧
      r.analysis_steps_completed = ["metadata"] := by
  obtain ⟨r, s', h1, h2⟩ := execute_analysis_steps_completed (fun i => i) mrPlanOk viSample
    [] none (initAgentState 0) "the plan" rfl rfl
  refine ⟨r, s', h1, ?_⟩
  simpa [transcriptTruthy] using h2

/-- C5: refinement replaces the summary exactly when the draft's score is
strictly below 0.8, and a failing refinement model call always leaves the
draft unchanged in the final result. -/
theorem execute_analysis_refinement_policy (clock : Nat → Nat) (mr : ModelResponses)
    (video_info : VideoInfo) (frames : List String) (audio_transcript : Option String)
    (s : AgentState) (t : String) (hplan : mr.planResp = Except.ok t)
    (hs : s.task_memory = none) :
    ∃ r s', execute_analysis clock mr video_info frames audio_transcript s = (Except.ok r, s') ∧
      r.summary =
        (if quality_check_score (draftOf mr.synthResp) (_extract_quality_criteria t) < 0.8 then
          (match mr.refineResp with
           | Except.ok rt => rt
           | Except.error _ => draftOf mr.synthResp)
         else draftOf mr.synthResp) ∧
      (∀ e, mr.refineResp = Except.error e → r.summary = draftOf mr.synthResp) := by
  obtain ⟨r, s', h1, -, -, h4⟩ :=
    execute_ok_shape clock mr video_info frames audio_transcript s t hplan hs
  refine ⟨r, s', h1, h4, ?_⟩
  intro e he
  rw [h4, he]
  by_cases hq : quality_check_score (draftOf mr.synthResp) (_extract_quality_criteria t) < 0.8 <;>
    simp [hq]

/-- C5 witness: a failing refinement call leaves the draft unchanged. -/
theorem execute_analysis_refinement_policy_witness :
    ∃ r s', execute_analysis (fun i => i) mrRefineFails viSample ["f"] (some "hello")
        (initAgentState 0) = (Except.ok r, s') ∧
      r.summary = "a short draft" := by
  obtain ⟨r, s', h1, -, h3⟩ := execute_analysis_refinement_policy (fun i => i) mrRefineFails
    viSample ["f"] (some "hello") (initAgentState 0) "the plan" rfl rfl
  exact ⟨r, s', h1, h3 "refine model down" rfl⟩

/-- C10: the reported quality score is always the score of the
pre-refinement draft; when refinement replaces the summary the refined text
is not re-scored, so the score describes the discarded draft. -/
theorem execute_analysis_score_is_prerefinement (clock : Nat → Nat) (mr : ModelResponses)
    (video_info : VideoInfo) (frames : List String) (audio_transcript : Option String)
    (s : AgentState) (t rt : String) (hplan : mr.planResp = Except.ok t)
    (hs : s.task_memory = none) (hrefine : mr.refineResp = Except.ok rt) :
    ∃ r s', execute_analysis clock mr video_info frames audio_transcript s = (Except.ok r, s') ∧
      r.quality_score = quality_check_score (draftOf mr.synthResp) (_extract_quality_criteria t) ∧
      (quality_check_score (draftOf mr.synthResp) (_extract_quality_criteria t) < 0.8 →
        r.summary = rt) := by
  obtain ⟨r, s', h1, -, h3, h4⟩ :=
    execute_ok_shape clock mr video_info frames audio_transcript s t hplan hs
  refine ⟨r, s', h1, h3, ?_⟩
  intro hq
  rw [h4, if_pos hq, hrefine]

set_option maxRecDepth 4000 in
/-- C10 witness: the low-scoring draft is replaced by the refined text,
while the reported score is still the draft's 0.5. -/
theorem execute_analysis_score_is_prerefinement_witness :
    ∃ r s', execute_analysis (fun i => i) mrRefineOk viSample ["f"] (some "hello")
        (initAgentState 0) = (Except.ok r, s') ∧
      r.quality_score = quality_check_score "a short draft" (_extract_quality_criteria "the plan") ∧
      r.summary = "a polished and refined narrative" := by
  have hq : quality_check_score "a short draft" (_extract_quality_criteria "the plan") < 0.8 := by
    have hlen : ("a short draft" : String).length = 13 := by decide
    have hnn : countNN ("a short draft" : String).data = 0 := by decide
    have hfound : ((["summary", "overview", "key", "main", "insights"] : List String).filter
        (fun element => containsList (pyLower element).data
          (pyLower "a short draft").data)).length = 0 := by decide
    rw [quality_check_score]
    rw [hfound, hlen, hnn]
    norm_num [pymin]
  obtain ⟨r, s', h1, h2, h3⟩ := execute_analysis_score_is_prerefinement (fun i => i) mrRefineOk
    viSample ["f"] (some "hello") (initAgentState 0) "the plan"
    "a polished and refined narrative" rfl rfl rfl
  exact ⟨r, s', h1, h2, h3 hq⟩

/-! ## C9: the action log -/

theorem logExtends_of_eq {clock : Nat → Nat} {s s2 : AgentState}
    (h : s2.conversation_history = s.conversation_history) : LogExtends clock s s2 := by
  refine ⟨[], by simp [h], ?_⟩
  intro i hi
  simp at hi

theorem logExtends_trans {clock : Nat → Nat} {s1 s2 s3 : AgentState}
    (h1 : LogExtends clock s1 s2) (h2 : LogExtends clock s2 s3) : LogExtends clock s1 s3 := by
  obtain ⟨t1, e1, p1⟩ := h1
  obtain ⟨t2, e2, p2⟩ := h2
  refine ⟨t1 ++ t2, by rw [e2, e1, List.append_assoc], ?_⟩
  intro i hi
  by_cases hc : i < t1.length
  · rw [List.getElem?_append_left hc]
    exact p1 i hc
  · push_neg at hc
    rw [List.getElem?_append_right hc]
    have hmem := p2 (i - t1.length) (by
      rw [List.length_append] at hi
      omega)
    have harg : s2.conversation_history.length + (i - t1.length) =
        s1.conversation_history.length + i := by
      rw [e1, List.length_append]
      omega
    rw [hmem, harg]

theorem logExtends_log (clock : Nat → Nat) (a d : String) (s : AgentState) :
    LogExtends clock s (_log_agent_action clock a d s) := by
  refine ⟨[⟨hhmmss (clock s.conversation_history.length), a, d, s.agent_id⟩], rfl, ?_⟩
  intro i hi
  simp only [List.length_singleton, Nat.lt_one_iff] at hi
  subst hi
  simp

theorem logExtends_plan (clock : Nat → Nat) (planResp : Except String String)
    (video_info : VideoInfo) (frames : List String) (audio_transcript : Option String)
    (s : AgentState) :
    LogExtends clock s
      (plan_analysis_task clock planResp video_info frames audio_transcript s).2 := by
  cases planResp with
  | ok t =>
      simp only [plan_analysis_task]
      exact logExtends_trans (logExtends_log _ _ _ _)
        (logExtends_trans (logExtends_of_eq rfl) (logExtends_log _ _ _ _))
  | error e =>
      simp only [plan_analysis_task]
      exact logExtends_trans (logExtends_log _ _ _ _) (logExtends_log _ _ _ _)

theorem logExtends_visual (clock : Nat → Nat) (modelResp : Except String String)
    (frames : List String) (video_info : VideoInfo) (s : AgentState) :
    LogExtends clock s (_analyze_visual_content clock modelResp frames video_info s).2 := by
  cases modelResp with
  | ok t =>
      simp only [_analyze_visual_content]
      exact logExtends_trans (logExtends_log _ _ _ _) (logExtends_of_eq rfl)
  | error e =>
      simp only [_analyze_visual_content]
      exact logExtends_trans (logExtends_log _ _ _ _) (logExtends_log _ _ _ _)

theorem logExtends_audio (clock : Nat → Nat) (modelResp : Except String String)
    (audio_transcript : String) (video_info : VideoInfo) (s : AgentState) :
    LogExtends clock s (_analyze_audio_content clock modelResp audio_transcript video_info s).2 := by
  cases modelResp with
  | ok t =>
      simp only [_analyze_audio_content]
      exact logExtends_trans (logExtends_log _ _ _ _) (logExtends_of_eq rfl)
  | error e =>
      simp only [_analyze_audio_content]
      exact logExtends_trans (logExtends_log _ _ _ _) (logExtends_log _ _ _ _)

theorem logExtends_metadata (clock : Nat → Nat) (video_info : VideoInfo) (s : AgentState) :
    LogExtends clock s (_analyze_metadata clock video_info s).2 := by
  simp only [_analyze_metadata]
  exact logExtends_trans (logExtends_log _ _ _ _) (logExtends_of_eq rfl)

theorem logExtends_synth (clock : Nat → Nat) (modelResp : Except String String)
    (analysis_results : List (String × PyVal)) (video_info : VideoInfo) (s : AgentState) :
    LogExtends clock s
      (_synthesize_content clock modelResp analysis_results video_info s).2 := by
  cases modelResp with
  | ok t => exact logExtends_log _ _ _ _
  | error e =>
      simp only [_synthesize_content]
      exact logExtends_trans (logExtends_log _ _ _ _) (logExtends_log _ _ _ _)

theorem logExtends_qc (clock : Nat → Nat) (summary : String) (quality_criteria : List String)
    (s : AgentState) :
    LogExtends clock s (_quality_check_summary clock summary quality_criteria s).2 :=
  logExtends_log _ _ _ _

theorem logExtends_refine (clock : Nat → Nat) (modelResp : Except String String)
    (summary : String) (analysis_results : List (String × PyVal)) (s : AgentState) :
    LogExtends clock s (_refine_summary clock modelResp summary analysis_results s).2 := by
  cases modelResp with
  | ok t => exact logExtends_log _ _ _ _
  | error e =>
      simp only [_refine_summary]
      exact logExtends_trans (logExtends_log _ _ _ _) (logExtends_log _ _ _ _)

theorem logExtends_runSteps (clock : Nat → Nat) (mr : ModelResponses)
    (video_info : VideoInfo) (frames : List String) (audio_transcript : Option String)
    (steps : List String) : ∀ (acc : List (String × PyVal)) (s : AgentState),
    LogExtends clock s
      (runSteps clock mr video_info frames audio_transcript steps acc s).2 := by
  induction steps with
  | nil => intro acc s; exact logExtends_of_eq rfl
  | cons step rest ih =>
      intro acc s
      rw [runSteps]
      split_ifs
      · exact logExtends_trans (logExtends_visual _ _ _ _ _) (ih _ _)
      · exact logExtends_trans (logExtends_audio _ _ _ _ _) (ih _ _)
      · exact logExtends_trans (logExtends_metadata _ _ _) (ih _ _)
      · exact ih _ _

theorem snd_pair {A B : Type} (a : A) (b : B) : (a, b).2 = b := rfl

/-- C9 (amended part): across any `execute_analysis` call the action log
only grows at the end — the prior history is a prefix of the new one — and
each appended entry carries the second-truncated formatted reading of the
clock at its own log call. -/
theorem execute_analysis_log_append_only (clock : Nat → Nat) (mr : ModelResponses)
    (video_info : VideoInfo) (frames : List String) (audio_transcript : Option String)
    (s : AgentState) :
    LogExtends clock s (execute_analysis clock mr video_info frames audio_transcript s).2 := by
  cases hmem : s.task_memory with
  | none =>
      simp only [execute_analysis, log_task_memory, hmem, Option.isNone_none, if_true]
      split
      · exact logExtends_trans (logExtends_log _ _ _ _) (logExtends_plan _ _ _ _ _ _)
      · refine logExtends_trans ?_ (logExtends_log _ _ _ _)
        split
        · refine logExtends_trans ?_ (logExtends_refine _ _ _ _ _)
          refine logExtends_trans ?_ (logExtends_log _ _ _ _)
          refine logExtends_trans ?_ (logExtends_qc _ _ _ _)
          refine logExtends_trans ?_ (logExtends_log _ _ _ _)
          refine logExtends_trans ?_ (logExtends_synth _ _ _ _ _)
          refine logExtends_trans ?_ (logExtends_log _ _ _ _)
          refine logExtends_trans ?_ (logExtends_runSteps _ _ _ _ _ _ _ _)
          exact logExtends_trans (logExtends_log _ _ _ _) (logExtends_plan _ _ _ _ _ _)
        · simp only [snd_pair]
          refine logExtends_trans ?_ (logExtends_qc _ _ _ _)
          refine logExtends_trans ?_ (logExtends_log _ _ _ _)
          refine logExtends_trans ?_ (logExtends_synth _ _ _ _ _)
          refine logExtends_trans ?_ (logExtends_log _ _ _ _)
          refine logExtends_trans ?_ (logExtends_runSteps _ _ _ _ _ _ _ _)
          exact logExtends_trans (logExtends_log _ _ _ _) (logExtends_plan _ _ _ _ _ _)
  | some p =>
      simp only [execute_analysis, log_task_memory, hmem, Option.isNone_some,
        Bool.false_eq_true, if_false]
      refine logExtends_trans ?_ (logExtends_log _ _ _ _)
      split
      · refine logExtends_trans ?_ (logExtends_refine _ _ _ _ _)
        refine logExtends_trans ?_ (logExtends_log _ _ _ _)
        refine logExtends_trans ?_ (logExtends_qc _ _ _ _)
        refine logExtends_trans ?_ (logExtends_log _ _ _ _)
        refine logExtends_trans ?_ (logExtends_synth _ _ _ _ _)
        refine logExtends_trans ?_ (logExtends_log _ _ _ _)
        refine logExtends_trans ?_ (logExtends_runSteps _ _ _ _ _ _ _ _)
        exact logExtends_log _ _ _ _
      · simp only [snd_pair]
        refine logExtends_trans ?_ (logExtends_qc _ _ _ _)
        refine logExtends_trans ?_ (logExtends_log _ _ _ _)
        refine logExtends_trans ?_ (logExtends_synth _ _ _ _ _)
        refine logExtends_trans ?_ (logExtends_log _ _ _ _)
        refine logExtends_trans ?_ (logExtends_runSteps _ _ _ _ _ _ _ _)
        exact logExtends_log _ _ _ _

set_option maxRecDepth 10000 in
/-- C9 counterexample: in this run the clock is strictly increasing, yet
the first two log entries carry the identical timestamp "00:00:00", because
`strftime("%H:%M:%S")` truncates to whole seconds — so the timestamps of
successive entries are not strictly increasing. -/
theorem execute_analysis_log_timestamps_not_strictly_increasing :
    (c9hist[0]?).map LogEntry.timestamp = some "00:00:00" ∧
      (c9hist[1]?).map LogEntry.timestamp = some "00:00:00" ∧
      c9clock 0 < c9clock 1 := by
  have hq : quality_check_score "the draft" (_extract_quality_criteria "plan text") < 0.8 := by
    have hlen : ("the draft" : String).length = 9 := by decide
    have hnn : countNN ("the draft" : String).data = 0 := by decide
    have hfound : ((["summary", "overview", "key", "main", "insights"] : List String).filter
        (fun element => containsList (pyLower element).data
          (pyLower "the draft").data)).length = 0 := by decide
    rw [quality_check_score]
    rw [hfound, hlen, hnn]
    norm_num [pymin]
  refine ⟨?_, ?_, by decide⟩ <;>
  · simp only [c9hist, execute_analysis, mrAllOk, plan_analysis_task, _quality_check_summary,
      _synthesize_content, log_task_memory, initAgentState, Option.isNone_none, if_true]
    rw [if_pos hq]
    decide

/-- C8 witness: with 8 supplied frames, only the first 6 are sent. -/
theorem visual_content_first6_witness :
    sentFrames (visualModelContent viSample ["fA", "fB", "fC", "fD", "fE", "fF", "fG", "fH"]) =
        ["fA", "fB", "fC", "fD", "fE", "fF"] ∧
      (sentFrames (visualModelContent viSample
        ["fA", "fB", "fC", "fD", "fE", "fF", "fG", "fH"])).length ≤ 6 := by
  obtain ⟨h1, h2, h3⟩ := visual_content_first6 viSample
    ["fA", "fB", "fC", "fD", "fE", "fF", "fG", "fH"] (by decide)
  refine ⟨?_, h2⟩
  rw [h1]
  rfl
